import Mathlib

/-!
Shallow embedding of the etcd-backed registry layer
(`pkg/deploy/registry/etcd/etcd.go` and `pkg/image/registry/etcd/etcd.go`).

Each Go registry method is embedded as a pure Lean function.  The backing
store (`tools.EtcdHelper`) is an external collaborator: every operation takes
the store's response as an explicit argument and additionally returns the
trace of store primitives it invoked (a `List StoreOp`), so that "the store
is not touched" and "no subscription is opened" are expressible as the trace
being empty.  Go `(value, error)` returns become pairs with `Option GoError`;
machine `uint64` arithmetic is `Nat` with explicit `% 2 ^ 64`.
-/

/-- Label mapping of a resource (`labels.Set`): string keys to string values. -/
abbrev LabelSet : Type := List (String × String)

/-- Modelled from the spec: `api.Deployment` (package `pkg/deploy/api`, not
under `src/`): an entity with a unique string id, a label mapping, and
kind-specific payload fields. -/
structure Deployment where
  ID : String
  Labels : LabelSet
  payload : String
  deriving DecidableEq, Repr

/-- Modelled from the spec: `api.DeploymentConfig` (package `pkg/deploy/api`,
not under `src/`): id, labels, kind-specific payload. -/
structure DeploymentConfig where
  ID : String
  Labels : LabelSet
  payload : String
  deriving DecidableEq, Repr

/-- Modelled from the spec: `api.Image` (package `pkg/image/api`, not under
`src/`): id, labels, kind-specific payload. -/
structure Image where
  ID : String
  Labels : LabelSet
  payload : String
  deriving DecidableEq, Repr

/-- Modelled from the spec: `api.ImageRepository` (package `pkg/image/api`,
not under `src/`): id, labels, kind-specific payload. -/
structure ImageRepository where
  ID : String
  Labels : LabelSet
  payload : String
  deriving DecidableEq, Repr

/-- Go `error` values visible at this layer: `errors.New` messages, the
translator-tagged domain errors, and the invalid-resource-version error. -/
inductive GoError where
  | simple (msg : String)
  | domain (op kind id : String) (under : GoError)
  | invalidResourceVersion (kind token : String)
  deriving DecidableEq, Repr

/-- Store primitives of `tools.EtcdHelper` that a registry operation can
invoke, with the key or namespace it passes. -/
inductive StoreOp where
  | extractToList (ns : String)
  | extractObj (key : String)
  | createObj (key : String)
  | setObj (key : String)
  | deleteKey (key : String)
  | watchList (ns : String) (cursor : Nat)
  deriving DecidableEq, Repr

/-- Modelled from the spec: `etcderr.InterpretGetError` (kubernetes
dependency, not under `src/`): a nil store error translates to nil; a non-nil
store error is tagged with the operation name `"get"`, the kind and the id. -/
def InterpretGetError (err : Option GoError) (kind id : String) : Option GoError :=
  err.map (GoError.domain "get" kind id)

/-- Modelled from the spec: `etcderr.InterpretCreateError` (kubernetes
dependency, not under `src/`): nil translates to nil; otherwise tag with
`"create"`, the kind and the id. -/
def InterpretCreateError (err : Option GoError) (kind id : String) : Option GoError :=
  err.map (GoError.domain "create" kind id)

/-- Modelled from the spec: `etcderr.InterpretUpdateError` (kubernetes
dependency, not under `src/`): nil translates to nil; otherwise tag with
`"update"`, the kind and the id. -/
def InterpretUpdateError (err : Option GoError) (kind id : String) : Option GoError :=
  err.map (GoError.domain "update" kind id)

/-- Modelled from the spec: `etcderr.InterpretDeleteError` (kubernetes
dependency, not under `src/`): nil translates to nil; otherwise tag with
`"delete"`, the kind and the id. -/
def InterpretDeleteError (err : Option GoError) (kind id : String) : Option GoError :=
  err.map (GoError.domain "delete" kind id)

/-- Modelled from the spec: `etcderr.InterpretResourceVersionError`
(kubernetes dependency, not under `src/`): produces the
`InvalidResourceVersion` error carrying the kind and the offending token. -/
def InterpretResourceVersionError (kind value : String) : GoError :=
  GoError.invalidResourceVersion kind value

/-- Embedding of Go `strconv.ParseUint(s, 10, 64)`: succeeds with the value
exactly when `s` is a nonempty string of decimal digits whose value fits in
an unsigned 64-bit integer; syntax errors and range overflow both fail. -/
def parseUint64 (s : String) : Option Nat :=
  if s.data.isEmpty then none
  else if s.data.all Char.isDigit then
    let n := s.data.foldl (fun acc c => acc * 10 + (c.toNat - '0'.toNat)) 0
    if n < 2 ^ 64 then some n else none
  else none

/-- Embedding of `parseWatchResourceVersion` (identical in both source
files): `""` and `"0"` map to cursor `0`; otherwise the token is parsed as a
uint64 and `version + 1` is returned (uint64 addition, hence `% 2 ^ 64`); a
parse failure yields cursor `0` with the translated resource-version error. -/
def parseWatchResourceVersion (resourceVersion kind : String) : Nat × Option GoError :=
  if resourceVersion = "" ∨ resourceVersion = "0" then (0, none)
  else
    match parseUint64 resourceVersion with
    | none => (0, some (InterpretResourceVersionError kind resourceVersion))
    | some version => ((version + 1) % 2 ^ 64, none)

/-- `makeDeploymentKey` from the deploy registry. -/
def makeDeploymentKey (id : String) : String :=
  "/deployments/" ++ id

/-- `makeDeploymentConfigKey` from the deploy registry. -/
def makeDeploymentConfigKey (id : String) : String :=
  "/deploymentConfigs/" ++ id

/-- `makeImageKey` from the image registry. -/
def makeImageKey (id : String) : String :=
  "/images/" ++ id

/-- `makeImageRepositoryKey` from the image registry. -/
def makeImageRepositoryKey (id : String) : String :=
  "/imageRepositories/" ++ id

/-- Go `runtime.Object`: a dynamically typed decoded watch payload.  The
`other` constructor stands for any decoded object that is none of the four
concrete api kinds. -/
inductive RuntimeObject where
  | deployment (d : Deployment)
  | deploymentConfig (c : DeploymentConfig)
  | image (i : Image)
  | imageRepository (r : ImageRepository)
  | other (desc : String)
  deriving DecidableEq, Repr

/-- Whether the Go type assertion `obj.(*api.Deployment)` succeeds. -/
def RuntimeObject.isDeployment : RuntimeObject → Bool
  | RuntimeObject.deployment _ => true
  | _ => false

/-- Whether the Go type assertion `obj.(*api.ImageRepository)` succeeds. -/
def RuntimeObject.isImageRepository : RuntimeObject → Bool
  | RuntimeObject.imageRepository _ => true
  | _ => false

/-- Diagnostics emitted via `glog.Errorf`: the format string together with
the object passed for `%#v`. -/
abbrev Diag : Type := List (String × RuntimeObject)

/-- The anonymous predicate `WatchDeployments` passes to `WatchList`: the
type assertion to `*api.Deployment`; on failure log and drop (`false`),
otherwise defer to the caller-supplied filter. -/
def deploymentWatchFilter (filter : Deployment → Bool) (obj : RuntimeObject) :
    Bool × Diag :=
  match obj with
  | RuntimeObject.deployment d => (filter d, [])
  | _ => (false, [("Unexpected object during deployment watch: %#v", obj)])

/-- The anonymous predicate `WatchImageRepositories` passes to `WatchList`:
the type assertion to `*api.ImageRepository`; on failure log and drop,
otherwise defer to the caller-supplied filter. -/
def imageRepositoryWatchFilter (filter : ImageRepository → Bool) (obj : RuntimeObject) :
    Bool × Diag :=
  match obj with
  | RuntimeObject.imageRepository r => (filter r, [])
  | _ => (false, [("Unexpected object during image repository watch: %#v", obj)])

/-- An open `WatchList` subscription for deployments: the namespace and
cursor handed to the store, and the wrapped predicate applied to each raw
event. -/
structure DeploymentWatch where
  nsPath : String
  cursor : Nat
  pred : RuntimeObject → Bool × Diag

/-- An open `WatchList` subscription for image repositories. -/
structure ImageRepositoryWatch where
  nsPath : String
  cursor : Nat
  pred : RuntimeObject → Bool × Diag

/-- `ListDeployments`: extract the full collection under `/deployments`
(the store's response is the `resp` argument), return the extraction error
as-is on failure, else keep exactly the items matching the selector, built
front-to-back as in the Go loop. -/
def ListDeployments (resp : Except GoError (List Deployment))
    (selector : LabelSet → Bool) :
    (Option (List Deployment) × Option GoError) × List StoreOp :=
  (match resp with
   | Except.error e => (none, some e)
   | Except.ok items =>
     let filtered := items.foldl
       (fun acc item => if selector item.Labels then acc ++ [item] else acc) []
     (some filtered, none),
   [StoreOp.extractToList "/deployments"])

/-- `GetDeployment`: extract the object at `makeDeploymentKey id`; a store
failure is translated via `InterpretGetError` tagged `"deployment"`/`id`. -/
def GetDeployment (resp : Except GoError Deployment) (id : String) :
    (Option Deployment × Option GoError) × List StoreOp :=
  (match resp with
   | Except.error e => (none, InterpretGetError (some e) "deployment" id)
   | Except.ok d => (some d, none),
   [StoreOp.extractObj (makeDeploymentKey id)])

/-- `CreateDeployment`: `CreateObj` at the deployment key (its error is the
`err` argument), translated via `InterpretCreateError`. -/
def CreateDeployment (err : Option GoError) (deployment : Deployment) :
    Option GoError × List StoreOp :=
  (InterpretCreateError err "deployment" deployment.ID,
   [StoreOp.createObj (makeDeploymentKey deployment.ID)])

/-- `UpdateDeployment`: unconditional `SetObj` at the deployment key,
translated via `InterpretUpdateError`. -/
def UpdateDeployment (err : Option GoError) (deployment : Deployment) :
    Option GoError × List StoreOp :=
  (InterpretUpdateError err "deployment" deployment.ID,
   [StoreOp.setObj (makeDeploymentKey deployment.ID)])

/-- `DeleteDeployment`: non-recursive `Delete` at the deployment key,
translated via `InterpretDeleteError`. -/
def DeleteDeployment (err : Option GoError) (id : String) :
    Option GoError × List StoreOp :=
  (InterpretDeleteError err "deployment" id,
   [StoreOp.deleteKey (makeDeploymentKey id)])

/-- `WatchDeployments`: parse the resource version for kind `"deployment"`;
on failure return the error with no subscription (empty trace); otherwise
open `WatchList` on `/deployments` at the cursor with the wrapped filter. -/
def WatchDeployments (resourceVersion : String) (filter : Deployment → Bool) :
    (Option DeploymentWatch × Option GoError) × List StoreOp :=
  match parseWatchResourceVersion resourceVersion "deployment" with
  | (_, some err) => ((none, some err), [])
  | (version, none) =>
    ((some ⟨"/deployments", version, deploymentWatchFilter filter⟩, none),
     [StoreOp.watchList "/deployments" version])

/-- `ListDeploymentConfigs`: like `ListDeployments` over
`/deploymentConfigs`. -/
def ListDeploymentConfigs (resp : Except GoError (List DeploymentConfig))
    (selector : LabelSet → Bool) :
    (Option (List DeploymentConfig) × Option GoError) × List StoreOp :=
  (match resp with
   | Except.error e => (none, some e)
   | Except.ok items =>
     let filtered := items.foldl
       (fun acc item => if selector item.Labels then acc ++ [item] else acc) []
     (some filtered, none),
   [StoreOp.extractToList "/deploymentConfigs"])

/-- `GetDeploymentConfig`: extract at the deploymentConfig key, failures
translated via `InterpretGetError` tagged `"deploymentConfig"`/`id`. -/
def GetDeploymentConfig (resp : Except GoError DeploymentConfig) (id : String) :
    (Option DeploymentConfig × Option GoError) × List StoreOp :=
  (match resp with
   | Except.error e => (none, InterpretGetError (some e) "deploymentConfig" id)
   | Except.ok c => (some c, none),
   [StoreOp.extractObj (makeDeploymentConfigKey id)])

/-- `CreateDeploymentConfig`: `CreateObj` translated via
`InterpretCreateError`. -/
def CreateDeploymentConfig (err : Option GoError) (config : DeploymentConfig) :
    Option GoError × List StoreOp :=
  (InterpretCreateError err "deploymentConfig" config.ID,
   [StoreOp.createObj (makeDeploymentConfigKey config.ID)])

/-- `UpdateDeploymentConfig`: `SetObj` translated via
`InterpretUpdateError`. -/
def UpdateDeploymentConfig (err : Option GoError) (config : DeploymentConfig) :
    Option GoError × List StoreOp :=
  (InterpretUpdateError err "deploymentConfig" config.ID,
   [StoreOp.setObj (makeDeploymentConfigKey config.ID)])

/-- `DeleteDeploymentConfig`: `Delete` translated via
`InterpretDeleteError`. -/
def DeleteDeploymentConfig (err : Option GoError) (id : String) :
    Option GoError × List StoreOp :=
  (InterpretDeleteError err "deploymentConfig" id,
   [StoreOp.deleteKey (makeDeploymentConfigKey id)])

/-- `ListImages`: like `ListDeployments` over `/images`. -/
def ListImages (resp : Except GoError (List Image))
    (selector : LabelSet → Bool) :
    (Option (List Image) × Option GoError) × List StoreOp :=
  (match resp with
   | Except.error e => (none, some e)
   | Except.ok items =>
     let filtered := items.foldl
       (fun acc item => if selector item.Labels then acc ++ [item] else acc) []
     (some filtered, none),
   [StoreOp.extractToList "/images"])

/-- `GetImage`: extract at the image key, failures translated via
`InterpretGetError` tagged `"image"`/`id`. -/
def GetImage (resp : Except GoError Image) (id : String) :
    (Option Image × Option GoError) × List StoreOp :=
  (match resp with
   | Except.error e => (none, InterpretGetError (some e) "image" id)
   | Except.ok i => (some i, none),
   [StoreOp.extractObj (makeImageKey id)])

/-- `CreateImage`: `CreateObj` translated via `InterpretCreateError`. -/
def CreateImage (err : Option GoError) (image : Image) :
    Option GoError × List StoreOp :=
  (InterpretCreateError err "image" image.ID,
   [StoreOp.createObj (makeImageKey image.ID)])

/-- `UpdateImage`: the body is literally `return errors.New("not supported")`
— no store primitive is invoked, so the trace is empty for every input. -/
def UpdateImage (_image : Image) : Option GoError × List StoreOp :=
  (some (GoError.simple "not supported"), [])

/-- `DeleteImage`: `Delete` translated via `InterpretDeleteError`. -/
def DeleteImage (err : Option GoError) (id : String) :
    Option GoError × List StoreOp :=
  (InterpretDeleteError err "image" id,
   [StoreOp.deleteKey (makeImageKey id)])

/-- `ListImageRepositories`: like `ListDeployments` over
`/imageRepositories`. -/
def ListImageRepositories (resp : Except GoError (List ImageRepository))
    (selector : LabelSet → Bool) :
    (Option (List ImageRepository) × Option GoError) × List StoreOp :=
  (match resp with
   | Except.error e => (none, some e)
   | Except.ok items =>
     let filtered := items.foldl
       (fun acc item => if selector item.Labels then acc ++ [item] else acc) []
     (some filtered, none),
   [StoreOp.extractToList "/imageRepositories"])

/-- `GetImageRepository`: extract at the imageRepository key, failures
translated via `InterpretGetError` tagged `"imageRepository"`/`id`. -/
def GetImageRepository (resp : Except GoError ImageRepository) (id : String) :
    (Option ImageRepository × Option GoError) × List StoreOp :=
  (match resp with
   | Except.error e => (none, InterpretGetError (some e) "imageRepository" id)
   | Except.ok r => (some r, none),
   [StoreOp.extractObj (makeImageRepositoryKey id)])

/-- `CreateImageRepository`: `CreateObj` translated via
`InterpretCreateError`. -/
def CreateImageRepository (err : Option GoError) (repo : ImageRepository) :
    Option GoError × List StoreOp :=
  (InterpretCreateError err "imageRepository" repo.ID,
   [StoreOp.createObj (makeImageRepositoryKey repo.ID)])

/-- `UpdateImageRepository`: `SetObj` translated via
`InterpretUpdateError`. -/
def UpdateImageRepository (err : Option GoError) (repo : ImageRepository) :
    Option GoError × List StoreOp :=
  (InterpretUpdateError err "imageRepository" repo.ID,
   [StoreOp.setObj (makeImageRepositoryKey repo.ID)])

/-- `DeleteImageRepository`: `Delete` translated via
`InterpretDeleteError`. -/
def DeleteImageRepository (err : Option GoError) (id : String) :
    Option GoError × List StoreOp :=
  (InterpretDeleteError err "imageRepository" id,
   [StoreOp.deleteKey (makeImageRepositoryKey id)])

/-- `WatchImageRepositories`: parse the resource version for kind
`"imageRepository"`; on failure return the error with no subscription;
otherwise open `WatchList` on `/imageRepositories` at the cursor with the
wrapped filter. -/
def WatchImageRepositories (resourceVersion : String)
    (filter : ImageRepository → Bool) :
    (Option ImageRepositoryWatch × Option GoError) × List StoreOp :=
  match parseWatchResourceVersion resourceVersion "imageRepository" with
  | (_, some err) => ((none, some err), [])
  | (version, none) =>
    ((some ⟨"/imageRepositories", version, imageRepositoryWatchFilter filter⟩, none),
     [StoreOp.watchList "/imageRepositories" version])

/-!  Helper lemmas shared by several theorems. -/

/-- The Go accumulation loop (`filtered = append(filtered, item)` under the
selector test) computes `List.filter`. -/
theorem foldl_select_eq_filter {α : Type} (p : α → Bool) (l : List α) :
    ∀ acc, l.foldl (fun acc x => if p x then acc ++ [x] else acc) acc
      = acc ++ l.filter p := by
  induction l with
  | nil => intro acc; simp
  | cons x l ih =>
    intro acc
    cases h : p x with
    | true => simp [List.filter_cons, h, ih]
    | false => simp [List.filter_cons, h, ih]

/-- The accumulation loop with a selector that keeps everything appends each
item in order. -/
theorem foldl_append_eq {α : Type} (l : List α) :
    ∀ acc, l.foldl (fun acc x => acc ++ [x]) acc = acc ++ l := by
  induction l with
  | nil => intro acc; simp
  | cons x l ih => intro acc; simp [ih]

/-- Appending to a fixed left string is injective. -/
theorem string_append_right_cancel (p a b : String) (h : p ++ a = p ++ b) :
    a = b := by
  have hd := congrArg String.data h
  rw [String.data_append, String.data_append] at hd
  exact String.ext (List.append_cancel_left hd)

/-- A present token rejected by `parseUint64` makes the parser return the
translated invalid-resource-version error. -/
theorem parseWatchResourceVersion_none (kind s : String) (h1 : s ≠ "")
    (h2 : s ≠ "0") (hp : parseUint64 s = none) :
    parseWatchResourceVersion s kind
      = (0, some (GoError.invalidResourceVersion kind s)) := by
  unfold parseWatchResourceVersion
  rw [if_neg (not_or.mpr ⟨h1, h2⟩), hp]
  rfl

/-!  Theorems settling the claims. -/

/-- C1 counterexample: at the token `"18446744073709551615"` (a valid
non-negative base-10 integer `N = 2 ^ 64 - 1`) the parser returns cursor `0`
with no error, not cursor `N + 1` as the claim states. -/
theorem parseWatchResourceVersion_c1_counterexample :
    parseWatchResourceVersion "18446744073709551615" "deployment" = (0, none) ∧
    (0 : Nat) ≠ 18446744073709551615 + 1 :=
  ⟨by decide, by decide⟩

/-- C1 (amended): for every kind, the empty token and `"0"` give cursor `0`
with no error; a token that `strconv.ParseUint` accepts with value `N` gives
cursor `(N + 1) % 2 ^ 64` with no error; a present token that `ParseUint`
rejects (not all decimal digits, or value at least `2 ^ 64`) fails with
`InvalidResourceVersion` carrying the kind and the token; in particular
`parse "5" = (6, nil)` and `parse "abc"` fails referencing `"abc"`. -/
theorem parseWatchResourceVersion_spec (kind : String) :
    parseWatchResourceVersion "" kind = (0, none) ∧
    parseWatchResourceVersion "0" kind = (0, none) ∧
    (∀ s n, s ≠ "" → s ≠ "0" → parseUint64 s = some n →
      parseWatchResourceVersion s kind = ((n + 1) % 2 ^ 64, none)) ∧
    (∀ s, s ≠ "" → s ≠ "0" → parseUint64 s = none →
      parseWatchResourceVersion s kind
        = (0, some (GoError.invalidResourceVersion kind s))) ∧
    parseWatchResourceVersion "5" kind = (6, none) ∧
    parseWatchResourceVersion "abc" kind
      = (0, some (GoError.invalidResourceVersion kind "abc")) := by
  refine ⟨by simp [parseWatchResourceVersion], by simp [parseWatchResourceVersion],
    ?_, ?_, ?_, ?_⟩
  · intro s n h1 h2 hp
    unfold parseWatchResourceVersion
    rw [if_neg (not_or.mpr ⟨h1, h2⟩), hp]
  · intro s h1 h2 hp
    exact parseWatchResourceVersion_none kind s h1 h2 hp
  · unfold parseWatchResourceVersion
    rw [if_neg (by decide), show parseUint64 "5" = some 5 from by decide]
    rfl
  · unfold parseWatchResourceVersion
    rw [if_neg (by decide), show parseUint64 "abc" = none from by decide]
    rfl

/-- C1 witness: the integer and the failure clauses of
`parseWatchResourceVersion_spec` instantiated at concrete tokens. -/
theorem parseWatchResourceVersion_spec_witness :
    parseWatchResourceVersion "7" "image" = ((7 + 1) % 2 ^ 64, none) ∧
    parseWatchResourceVersion "zz" "image"
      = (0, some (GoError.invalidResourceVersion "image" "zz")) :=
  ⟨(parseWatchResourceVersion_spec "image").2.2.1 "7" 7
      (by decide) (by decide) (by decide),
   (parseWatchResourceVersion_spec "image").2.2.2.1 "zz"
      (by decide) (by decide) (by decide)⟩

/-- C9: the maximal uint64 token `"18446744073709551615"` parses with no
error and yields cursor `0`, because `N + 1` is uint64 addition, i.e. is
taken modulo `2 ^ 64`; the cursor is the "no lower bound" value `0`. -/
theorem parseWatchResourceVersion_uint64_wraparound :
    parseWatchResourceVersion "18446744073709551615" "imageRepository" = (0, none) ∧
    parseWatchResourceVersion "18446744073709551615" "deploymentConfig" = (0, none) ∧
    (18446744073709551615 : Nat) = 2 ^ 64 - 1 ∧
    (18446744073709551615 + 1) % 2 ^ 64 = 0 :=
  ⟨by decide, by decide, by decide, by decide⟩

/-- C8: each key builder produces the deterministic path
`namespacePathOfKind ++ "/" ++ id`, and for distinct ids of the same kind the
keys are distinct (id to path is injective within a kind's namespace). -/
theorem make_key_deterministic_injective (id : String) :
    (makeDeploymentKey id = "/deployments" ++ "/" ++ id ∧
     makeDeploymentConfigKey id = "/deploymentConfigs" ++ "/" ++ id ∧
     makeImageKey id = "/images" ++ "/" ++ id ∧
     makeImageRepositoryKey id = "/imageRepositories" ++ "/" ++ id) ∧
    (∀ a b : String, a ≠ b →
      makeDeploymentKey a ≠ makeDeploymentKey b ∧
      makeDeploymentConfigKey a ≠ makeDeploymentConfigKey b ∧
      makeImageKey a ≠ makeImageKey b ∧
      makeImageRepositoryKey a ≠ makeImageRepositoryKey b) := by
  constructor
  · refine ⟨?_, ?_, ?_, ?_⟩
    · rw [makeDeploymentKey, show ("/deployments" ++ "/" : String)
        = "/deployments/" from by decide]
    · rw [makeDeploymentConfigKey, show ("/deploymentConfigs" ++ "/" : String)
        = "/deploymentConfigs/" from by decide]
    · rw [makeImageKey, show ("/images" ++ "/" : String)
        = "/images/" from by decide]
    · rw [makeImageRepositoryKey, show ("/imageRepositories" ++ "/" : String)
        = "/imageRepositories/" from by decide]
  · intro a b hab
    refine ⟨?_, ?_, ?_, ?_⟩ <;>
      exact fun h => hab (string_append_right_cancel _ _ _ h)

/-- C8 witness: the injectivity half at the distinct ids `"a"` and `"b"`. -/
theorem make_key_injective_witness :
    makeDeploymentKey "a" ≠ makeDeploymentKey "b" ∧
    makeDeploymentConfigKey "a" ≠ makeDeploymentConfigKey "b" ∧
    makeImageKey "a" ≠ makeImageKey "b" ∧
    makeImageRepositoryKey "a" ≠ makeImageRepositoryKey "b" :=
  (make_key_deterministic_injective "a").2 "a" "b" (by decide)

/-- C2: `UpdateImage` unconditionally fails with the unsupported error
(`errors.New "not supported"`) for every input image, valid or not, and
invokes no store primitive: its store trace is empty. -/
theorem updateImage_unsupported (image : Image) :
    UpdateImage image = (some (GoError.simple "not supported"), []) := rfl

/-- C3: on a successful extraction, List returns exactly the order-preserving
subsequence of items whose labels satisfy the selector, with no error; an
always-true selector returns the collection unchanged and a never-matching
selector returns the empty collection. -/
theorem list_filters_by_selector (sel selI : LabelSet → Bool)
    (ds : List Deployment) (imgs : List Image) :
    ListDeployments (Except.ok ds) sel =
      ((some (ds.filter fun d => sel d.Labels), none),
       [StoreOp.extractToList "/deployments"]) ∧
    ListDeployments (Except.ok ds) (fun _ => true) =
      ((some ds, none), [StoreOp.extractToList "/deployments"]) ∧
    ListDeployments (Except.ok ds) (fun _ => false) =
      ((some [], none), [StoreOp.extractToList "/deployments"]) ∧
    ListImages (Except.ok imgs) selI =
      ((some (imgs.filter fun i => selI i.Labels), none),
       [StoreOp.extractToList "/images"]) ∧
    ListImages (Except.ok imgs) (fun _ => true) =
      ((some imgs, none), [StoreOp.extractToList "/images"]) ∧
    ListImages (Except.ok imgs) (fun _ => false) =
      ((some [], none), [StoreOp.extractToList "/images"]) := by
  refine ⟨?_, ?_, ?_, ?_, ?_, ?_⟩ <;>
    (simp only [ListDeployments, ListImages, foldl_select_eq_filter]
     try simp [foldl_append_eq])

/-- C5: a failing store extraction aborts List: the store error is returned
to the caller verbatim (not tagged by any translator) with a nil
collection. -/
theorem list_store_error_verbatim (e : GoError)
    (sel selI : LabelSet → Bool) :
    ListDeployments (Except.error e) sel =
      ((none, some e), [StoreOp.extractToList "/deployments"]) ∧
    ListImages (Except.error e) selI =
      ((none, some e), [StoreOp.extractToList "/images"]) :=
  ⟨rfl, rfl⟩

/-- C6: on every kind, a failing Get/Create/Update/Delete store call is
routed through the translator for that operation, so the surfaced error is
tagged with the operation name, the kind string and the entity id; a nil
store error translates to nil. -/
theorem crud_errors_translated (e : GoError) (id : String)
    (d : Deployment) (c : DeploymentConfig) (i : Image) (r : ImageRepository) :
    GetDeployment (Except.error e) id =
      ((none, some (GoError.domain "get" "deployment" id e)),
       [StoreOp.extractObj (makeDeploymentKey id)]) ∧
    GetDeployment (Except.ok d) id =
      ((some d, none), [StoreOp.extractObj (makeDeploymentKey id)]) ∧
    CreateDeployment (some e) d =
      (some (GoError.domain "create" "deployment" d.ID e),
       [StoreOp.createObj (makeDeploymentKey d.ID)]) ∧
    CreateDeployment none d =
      (none, [StoreOp.createObj (makeDeploymentKey d.ID)]) ∧
    UpdateDeployment (some e) d =
      (some (GoError.domain "update" "deployment" d.ID e),
       [StoreOp.setObj (makeDeploymentKey d.ID)]) ∧
    UpdateDeployment none d =
      (none, [StoreOp.setObj (makeDeploymentKey d.ID)]) ∧
    DeleteDeployment (some e) id =
      (some (GoError.domain "delete" "deployment" id e),
       [StoreOp.deleteKey (makeDeploymentKey id)]) ∧
    DeleteDeployment none id =
      (none, [StoreOp.deleteKey (makeDeploymentKey id)]) ∧
    GetDeploymentConfig (Except.error e) id =
      ((none, some (GoError.domain "get" "deploymentConfig" id e)),
       [StoreOp.extractObj (makeDeploymentConfigKey id)]) ∧
    GetDeploymentConfig (Except.ok c) id =
      ((some c, none), [StoreOp.extractObj (makeDeploymentConfigKey id)]) ∧
    CreateDeploymentConfig (some e) c =
      (some (GoError.domain "create" "deploymentConfig" c.ID e),
       [StoreOp.createObj (makeDeploymentConfigKey c.ID)]) ∧
    CreateDeploymentConfig none c =
      (none, [StoreOp.createObj (makeDeploymentConfigKey c.ID)]) ∧
    UpdateDeploymentConfig (some e) c =
      (some (GoError.domain "update" "deploymentConfig" c.ID e),
       [StoreOp.setObj (makeDeploymentConfigKey c.ID)]) ∧
    UpdateDeploymentConfig none c =
      (none, [StoreOp.setObj (makeDeploymentConfigKey c.ID)]) ∧
    DeleteDeploymentConfig (some e) id =
      (some (GoError.domain "delete" "deploymentConfig" id e),
       [StoreOp.deleteKey (makeDeploymentConfigKey id)]) ∧
    DeleteDeploymentConfig none id =
      (none, [StoreOp.deleteKey (makeDeploymentConfigKey id)]) ∧
    GetImage (Except.error e) id =
      ((none, some (GoError.domain "get" "image" id e)),
       [StoreOp.extractObj (makeImageKey id)]) ∧
    GetImage (Except.ok i) id =
      ((some i, none), [StoreOp.extractObj (makeImageKey id)]) ∧
    CreateImage (some e) i =
      (some (GoError.domain "create" "image" i.ID e),
       [StoreOp.createObj (makeImageKey i.ID)]) ∧
    CreateImage none i =
      (none, [StoreOp.createObj (makeImageKey i.ID)]) ∧
    DeleteImage (some e) id =
      (some (GoError.domain "delete" "image" id e),
       [StoreOp.deleteKey (makeImageKey id)]) ∧
    DeleteImage none id =
      (none, [StoreOp.deleteKey (makeImageKey id)]) ∧
    GetImageRepository (Except.error e) id =
      ((none, some (GoError.domain "get" "imageRepository" id e)),
       [StoreOp.extractObj (makeImageRepositoryKey id)]) ∧
    GetImageRepository (Except.ok r) id =
      ((some r, none), [StoreOp.extractObj (makeImageRepositoryKey id)]) ∧
    CreateImageRepository (some e) r =
      (some (GoError.domain "create" "imageRepository" r.ID e),
       [StoreOp.createObj (makeImageRepositoryKey r.ID)]) ∧
    CreateImageRepository none r =
      (none, [StoreOp.createObj (makeImageRepositoryKey r.ID)]) ∧
    UpdateImageRepository (some e) r =
      (some (GoError.domain "update" "imageRepository" r.ID e),
       [StoreOp.setObj (makeImageRepositoryKey r.ID)]) ∧
    UpdateImageRepository none r =
      (none, [StoreOp.setObj (makeImageRepositoryKey r.ID)]) ∧
    DeleteImageRepository (some e) id =
      (some (GoError.domain "delete" "imageRepository" id e),
       [StoreOp.deleteKey (makeImageRepositoryKey id)]) ∧
    DeleteImageRepository none id =
      (none, [StoreOp.deleteKey (makeImageRepositoryKey id)]) :=
  ⟨rfl, rfl, rfl, rfl, rfl, rfl, rfl, rfl, rfl, rfl, rfl, rfl, rfl, rfl, rfl,
   rfl, rfl, rfl, rfl, rfl, rfl, rfl, rfl, rfl, rfl, rfl, rfl, rfl, rfl, rfl⟩

/-- C4: a raw watch object of the expected kind is passed to the
caller-supplied filter and forwarded exactly when the filter returns true
(with no diagnostic); an object of any other dynamic kind is dropped — the
wrapping predicate returns false — with a diagnostic recorded, and the
wrapper still returns an ordinary boolean rather than terminating the
stream. -/
theorem watch_type_mismatch_dropped (f : Deployment → Bool)
    (g : ImageRepository → Bool) (obj : RuntimeObject) :
    (∀ d, deploymentWatchFilter f (RuntimeObject.deployment d) = (f d, [])) ∧
    (obj.isDeployment = false →
      deploymentWatchFilter f obj =
        (false, [("Unexpected object during deployment watch: %#v", obj)])) ∧
    (∀ r, imageRepositoryWatchFilter g (RuntimeObject.imageRepository r)
      = (g r, [])) ∧
    (obj.isImageRepository = false →
      imageRepositoryWatchFilter g obj =
        (false,
         [("Unexpected object during image repository watch: %#v", obj)])) := by
  refine ⟨fun d => rfl, ?_, fun r => rfl, ?_⟩ <;>
    (intro h
     cases obj <;>
       simp_all [deploymentWatchFilter, imageRepositoryWatchFilter,
         RuntimeObject.isDeployment, RuntimeObject.isImageRepository])

/-- C4 witness: a foreign object on each stream is dropped with the
diagnostic. -/
theorem watch_type_mismatch_dropped_witness :
    deploymentWatchFilter (fun _ => true) (RuntimeObject.other "noise") =
      (false, [("Unexpected object during deployment watch: %#v",
        RuntimeObject.other "noise")]) ∧
    imageRepositoryWatchFilter (fun _ => true) (RuntimeObject.other "noise") =
      (false, [("Unexpected object during image repository watch: %#v",
        RuntimeObject.other "noise")]) :=
  ⟨(watch_type_mismatch_dropped (fun _ => true) (fun _ => true)
      (RuntimeObject.other "noise")).2.1 rfl,
   (watch_type_mismatch_dropped (fun _ => true) (fun _ => true)
      (RuntimeObject.other "noise")).2.2.2 rfl⟩

/-- C10: on an object whose dynamic kind is not the expected one, the
wrapping predicate's result does not depend on the caller-supplied filter —
the filter is never invoked on a value of the wrong type — and the event is
dropped. -/
theorem watch_filter_type_isolation (obj : RuntimeObject) :
    (obj.isDeployment = false → ∀ f g : Deployment → Bool,
      deploymentWatchFilter f obj = deploymentWatchFilter g obj ∧
      (deploymentWatchFilter f obj).1 = false) ∧
    (obj.isImageRepository = false → ∀ f g : ImageRepository → Bool,
      imageRepositoryWatchFilter f obj = imageRepositoryWatchFilter g obj ∧
      (imageRepositoryWatchFilter f obj).1 = false) := by
  constructor <;>
    (intro h f g
     cases obj <;>
       simp_all [deploymentWatchFilter, imageRepositoryWatchFilter,
         RuntimeObject.isDeployment, RuntimeObject.isImageRepository])

/-- C10 witness: two distinct filters agree on a mismatched object and the
event is dropped. -/
theorem watch_filter_type_isolation_witness :
    deploymentWatchFilter (fun _ => false)
        (RuntimeObject.image ⟨"i", [], "p"⟩) =
      deploymentWatchFilter (fun _ => true)
        (RuntimeObject.image ⟨"i", [], "p"⟩) ∧
    (deploymentWatchFilter (fun _ => false)
        (RuntimeObject.image ⟨"i", [], "p"⟩)).1 = false :=
  (watch_filter_type_isolation (RuntimeObject.image ⟨"i", [], "p"⟩)).1 rfl
    (fun _ => false) (fun _ => true)

/-- C7: a present resource-version token rejected by the uint64 parser makes
Watch fail with the `InvalidResourceVersion` error carrying the kind and the
token, return no stream, and invoke no store primitive (in particular no
`WatchList` subscription is opened). -/
theorem watch_rejects_invalid_resource_version (rv : String)
    (f : Deployment → Bool) (g : ImageRepository → Bool)
    (hne : rv ≠ "") (hp : parseUint64 rv = none) :
    WatchDeployments rv f =
      ((none, some (GoError.invalidResourceVersion "deployment" rv)), []) ∧
    WatchImageRepositories rv g =
      ((none, some (GoError.invalidResourceVersion "imageRepository" rv)), [])
    := by
  have h0 : rv ≠ "0" := fun h => by subst h; revert hp; decide
  constructor
  · unfold WatchDeployments
    rw [parseWatchResourceVersion_none "deployment" rv hne h0 hp]
  · unfold WatchImageRepositories
    rw [parseWatchResourceVersion_none "imageRepository" rv hne h0 hp]

/-- C7 witness: the token `"abc"` is rejected on both kinds with no
subscription opened. -/
theorem watch_rejects_invalid_rv_witness :
    WatchDeployments "abc" (fun _ => true) =
      ((none, some (GoError.invalidResourceVersion "deployment" "abc")), []) ∧
    WatchImageRepositories "abc" (fun _ => true) =
      ((none, some (GoError.invalidResourceVersion "imageRepository" "abc")),
       []) :=
  watch_rejects_invalid_resource_version "abc" (fun _ => true) (fun _ => true)
    (by decide) (by decide)
